import Mathlib

/-!
Verification of the airline-network-optimization analytics core (src/app.py).

The development shallowly embeds the two engines of the application:

* `run_audit` (app.py, `run_audit`): filters the canonical flight-record table
  to the globally-latest year and the selected hub, groups by
  (region, dest_label, airline_label), aggregates (sums, mean distance),
  derives the financial columns, the per-destination market shares and the
  status classification.
* `get_forecast` (app.py, `get_forecast`): selects a route by origin and
  destination (city-name match first, raw code retry), aggregates passengers
  by (year, month), drops calendar years 2020 and 2021 from the training
  subset, and on success returns the historical series followed by twelve
  predicted points for the year after the last observed one.

Modelling conventions:

* Numeric columns are embedded as exact rationals (ℚ); the floating-point
  arithmetic of pandas is idealized as exact field arithmetic.
* The float power `DISTANCE ** -0.15` has no exact rational embedding, so the
  pipeline is parametric in a function `pw : ℚ → ℚ` standing for
  `fun d => d ** (-0.15)`.  Every theorem is proved for all `pw`.
* The fitted RandomForestRegressor is likewise modelled by an abstract
  prediction function `p : ℕ → ℕ → ℚ` mapping (year, month) to passengers;
  the claims under verification only concern the structure of the output,
  never the predicted values.
* A pandas float division by zero produces a non-finite value (NaN or ±inf)
  that flows into the output; such a value is modelled as `none` of an
  `Option ℚ` column.
* A pandas `KeyError` (accessing a column the table does not carry) is
  modelled as `Except.error`; `get_forecast` reads the raw `DEST_CITY_NAME`
  column, which a code-only dataset lacks, so the frame records whether that
  column exists.
-/

set_option maxRecDepth 4000

attribute [local semireducible] Rat.add Rat.mul Rat.inv Rat.sub Rat.ofScientific

/-- One canonical flight-segment record (a row of the table produced by the
data loader): year, month, origin/destination codes, the raw
`DEST_CITY_NAME` column value (meaningful only when the frame carries that
column), the mapped label columns, and the numeric columns. -/
structure Rec where
  year : ℕ
  month : ℕ
  origin : String
  dest : String
  destCityName : String
  destLabel : String
  airlineLabel : String
  region : String
  passengers : ℚ
  seats : ℚ
  departures : ℚ
  distance : ℚ
deriving DecidableEq

/-- The canonical table handed to the engines.  `hasDestCityName` records
whether the raw `DEST_CITY_NAME` column exists in the underlying dataframe:
`get_forecast` accesses it directly and a dataset that only carries airport
codes does not have it. -/
structure Frame where
  hasDestCityName : Bool
  rows : List Rec
deriving DecidableEq

/-- Maximum of a list of naturals, 0 on the empty list (models
`Series.max()` in the places the engines use it, where the list is
nonempty). -/
def listMax (l : List ℕ) : ℕ := l.foldr max 0

/-- Global maximum year over all records: `df['YEAR'].max()` — computed on
the whole table, not restricted to the hub. -/
def maxYearOf (f : Frame) : ℕ := listMax (f.rows.map (·.year))

/-- Hub/latest-year filter of `run_audit`:
`df[(df['YEAR'] == max_year) & (df['ORIGIN'] == hub_code)]`. -/
def auditData (f : Frame) (hub : String) : List Rec :=
  f.rows.filter (fun r => r.year == maxYearOf f && r.origin == hub)

/-- Grouping key of the audit aggregation: (Region, Dest_Label, Airline_Label). -/
def auditKey (r : Rec) : String × String × String := (r.region, r.destLabel, r.airlineLabel)

/-- The distinct grouping keys of the filtered records (`groupby` group keys;
group order is not modelled, no claim depends on it). -/
def groupKeys (data : List Rec) : List (String × String × String) :=
  (data.map auditKey).dedup

/-- The records of one group: all filtered records carrying the key. -/
def groupRows (data : List Rec) (k : String × String × String) : List Rec :=
  data.filter (fun r => r.region == k.1 && r.destLabel == k.2.1 && r.airlineLabel == k.2.2)

/-- One aggregated row after the `agg` and financial-column steps of
`run_audit` (before the market-position merge). -/
structure FinRow where
  region : String
  destLabel : String
  airlineLabel : String
  passengers : ℚ
  seats : ℚ
  departures : ℚ
  distance : ℚ
  yieldRate : ℚ
  revenue : ℚ
  cost : ℚ
  profit : ℚ
  margin : Option ℚ
deriving DecidableEq

/-- Aggregation and financial formulas of `run_audit` for one group, exactly
as in the source: sums of passengers/seats/departures, mean distance,
`Yield = 0.6 * DISTANCE ** -0.15` (the power through the abstract `pw`),
`Revenue = PASSENGERS * (DISTANCE * Yield)`,
`Cost = ((DISTANCE/450)+0.5) * DEPARTURES_PERFORMED * (5500 + 850*2.80)`,
`Profit = Revenue - Cost`, `Margin = Profit / Revenue * 100`.  The source has
no guard on `Revenue == 0`: the float quotient is then non-finite (NaN or
±inf), modelled as `none`. -/
def mkFinRow (pw : ℚ → ℚ) (data : List Rec) (k : String × String × String) : FinRow :=
  let grp := groupRows data k
  let pass := (grp.map (·.passengers)).sum
  let se := (grp.map (·.seats)).sum
  let dep := (grp.map (·.departures)).sum
  let dist := (grp.map (·.distance)).sum / (grp.length : ℚ)
  let yld := (0.6 : ℚ) * pw dist
  let rev := pass * (dist * yld)
  let co := ((dist / 450 + 0.5) * dep) * (5500 + 850 * (2.80 : ℚ))
  { region := k.1, destLabel := k.2.1, airlineLabel := k.2.2,
    passengers := pass, seats := se, departures := dep, distance := dist,
    yieldRate := yld, revenue := rev, cost := co, profit := rev - co,
    margin := if rev = 0 then none else some ((rev - co) / rev * 100) }

/-- All aggregated rows with financials: one per distinct group key. -/
def finRows (pw : ℚ → ℚ) (data : List Rec) : List FinRow :=
  (groupKeys data).map (mkFinRow pw data)

/-- `City_Total` of a destination: the sum of the (aggregated) passengers of
all rows of `stats` serving that destination
(`stats.groupby('Dest_Label')['PASSENGERS'].sum()` joined back by merge). -/
def cityTotalOf (rows : List FinRow) (d : String) : ℚ :=
  ((rows.filter (fun b => b.destLabel == d)).map (·.passengers)).sum

/-- The `np.select` status classification: conditions
`share > 50`, `20 < share <= 50`, `share <= 20` in priority order with string
choices; when no condition holds — which is how numpy evaluates comparisons
against the NaN share of a zero-total destination, modelled as `none` —
`np.select` falls back to its default value 0. -/
def statusSelect : Option ℚ → String
  | none => "0"
  | some s =>
    if 50 < s then "👑 Monopoly"
    else if 20 < s ∧ s ≤ 50 then "⚔️ Competitive"
    else if s ≤ 20 then "⚠️ Minor Player"
    else "0"

/-- Final audit row: financial row plus `City_Total`, `Market_Share` and
`Status`. -/
structure AggRow extends FinRow where
  cityTotal : ℚ
  marketShare : Option ℚ
  status : String
deriving DecidableEq

/-- Market-position step of `run_audit` for one row: the city total over the
aggregated rows, `Market_Share = PASSENGERS / City_Total * 100` (a float NaN
when the total is zero, modelled as `none`), and the `np.select` status. -/
def mkAggRow (rows : List FinRow) (b : FinRow) : AggRow :=
  let t := cityTotalOf rows b.destLabel
  let share : Option ℚ := if t = 0 then none else some (b.passengers / t * 100)
  { toFinRow := b, cityTotal := t, marketShare := share, status := statusSelect share }

/-- The full list of audit rows for a nonempty filter result. -/
def auditRows (pw : ℚ → ℚ) (f : Frame) (hub : String) : List AggRow :=
  (finRows pw (auditData f hub)).map (mkAggRow (finRows pw (auditData f hub)))

/-- The audit engine `run_audit(df, hub_code)`: global max year, hub filter,
`None` on an empty filter result, otherwise the aggregated table. -/
def run_audit (pw : ℚ → ℚ) (f : Frame) (hub : String) : Option (List AggRow) :=
  if (auditData f hub).isEmpty then none else some (auditRows pw f hub)

/-- One point of the forecast output: `(YEAR, MONTH, PASSENGERS, Type)` with
`Type` either "Historical" or "Forecast". -/
structure FPoint where
  year : ℕ
  month : ℕ
  passengers : ℚ
  type : String
deriving DecidableEq

/-- Chronological (strict lexicographic) order on (year, month) keys. -/
def keyLt (a b : ℕ × ℕ) : Prop := a.1 < b.1 ∨ (a.1 = b.1 ∧ a.2 < b.2)

instance : DecidableRel keyLt := fun a b =>
  inferInstanceAs (Decidable (a.1 < b.1 ∨ (a.1 = b.1 ∧ a.2 < b.2)))

/-- Sorted-insert of a key into a strictly sorted deduplicated key list
(the sorted unique group keys that pandas `groupby(['YEAR','MONTH'])`
produces). -/
def insertKey (k : ℕ × ℕ) : List (ℕ × ℕ) → List (ℕ × ℕ)
  | [] => [k]
  | k' :: ks =>
    if k = k' then k' :: ks
    else if keyLt k k' then k :: k' :: ks
    else k' :: insertKey k ks

/-- The sorted distinct (year, month) keys of a route. -/
def sortedKeys (route : List Rec) : List (ℕ × ℕ) :=
  route.foldl (fun ks r => insertKey (r.year, r.month) ks) []

/-- Monthly passenger series of a route:
`route.groupby(['YEAR','MONTH'])['PASSENGERS'].sum()` — for each distinct
(year, month) key, in ascending key order, the summed passengers. -/
def monthlySeries (route : List Rec) : List (ℕ × ℕ × ℚ) :=
  (sortedKeys route).map (fun k =>
    (k.1, k.2, ((route.filter (fun r => r.year == k.1 && r.month == k.2)).map (·.passengers)).sum))

/-- Training subset of the forecast: the monthly series without calendar
years 2020 and 2021 (`monthly[~monthly['YEAR'].isin([2020, 2021])]`), the
fixed non-configurable exclusion; this is what the model is fitted on. -/
def cleanSeries (monthly : List (ℕ × ℕ × ℚ)) : List (ℕ × ℕ × ℚ) :=
  monthly.filter (fun pt => !(pt.1 == 2020 || pt.1 == 2021))

/-- Route selection of `get_forecast`: match origin and destination against
the `DEST_CITY_NAME` column; when that yields nothing retry against the raw
`DEST` code column. -/
def routeOf (f : Frame) (o d : String) : List Rec :=
  let r1 := f.rows.filter (fun r => r.origin == o && r.destCityName == d)
  if r1.isEmpty then f.rows.filter (fun r => r.origin == o && r.dest == d) else r1

/-- A monthly point tagged as historical display data. -/
def histPoint (pt : ℕ × ℕ × ℚ) : FPoint := ⟨pt.1, pt.2.1, pt.2.2, "Historical"⟩

/-- The m-th predicted point (months 1..12 of the forecast year). -/
def futPoint (p : ℕ → ℕ → ℚ) (y : ℕ) (m : ℕ) : FPoint := ⟨y, m + 1, p y (m + 1), "Forecast"⟩

/-- `monthly['YEAR'].max()`: the last observed year of the (full) monthly
series, 2020/2021 included. -/
def lastYearOf (route : List Rec) : ℕ := listMax ((monthlySeries route).map (·.1))

/-- Successful forecast output: all historical monthly points tagged
Historical followed by the twelve predictions for the year after the last
observed one, tagged Forecast (`pd.concat([monthly, future])`). -/
def forecastSeries (p : ℕ → ℕ → ℚ) (f : Frame) (o d : String) : List FPoint :=
  (monthlySeries (routeOf f o d)).map histPoint
    ++ (List.range 12).map (futPoint p (lastYearOf (routeOf f o d) + 1))

/-- The forecast engine `get_forecast(df, origin, dest)`.  Reading the raw
`DEST_CITY_NAME` column of a frame that does not carry it raises a pandas
`KeyError`, modelled as `Except.error`; otherwise the engine returns the
sentinel statuses of the source. -/
def get_forecast (p : ℕ → ℕ → ℚ) (f : Frame) (o d : String) :
    Except String (Option (List FPoint) × String) :=
  if f.hasDestCityName then
    if (routeOf f o d).isEmpty then Except.ok (none, "No Data")
    else if (cleanSeries (monthlySeries (routeOf f o d))).length < 12 then
      Except.ok (none, "Not Enough Data")
    else Except.ok (some (forecastSeries p f o d), "Success")
  else Except.error ("KeyError: DEST_CITY_NAME")

deriving instance DecidableEq for Except

/-- Trivial stand-in for the float power function: every theorem below holds
for an arbitrary `pw`, the concrete witnesses instantiate it with the
constant-1 function. -/
def pw1 : ℚ → ℚ := fun _ => 1

/-- Concrete predictor used by witnesses (the zero predictor). -/
def p1 : ℕ → ℕ → ℚ := fun _ _ => 0

/-- A second concrete predictor, used to witness predictor-independence. -/
def p2 : ℕ → ℕ → ℚ := fun _ _ => 7

/-- A single ordinary latest-year record out of the hub JFK. -/
def recA : Rec :=
  { year := 2023, month := 1, origin := "JFK", dest := "LHR",
    destCityName := "London", destLabel := "London", airlineLabel := "AA",
    region := "UK", passengers := 100, seats := 150, departures := 10, distance := 450 }

/-- One-record frame with the city-name column present. -/
def exA : Frame := { hasDestCityName := true, rows := [recA] }

/-- The audit row `run_audit` produces for `exA` and hub JFK under `pw1`. -/
def rowA : AggRow :=
  { region := "UK", destLabel := "London", airlineLabel := "AA",
    passengers := 100, seats := 150, departures := 10, distance := 450,
    yieldRate := 0.6, revenue := 27000, cost := 118200, profit := -91200,
    margin := some (-3040/9), cityTotal := 100, marketShare := some 100,
    status := "👑 Monopoly" }

/-- A hub (LGA) whose only record is older than the global maximum year. -/
def recStale : Rec :=
  { year := 2022, month := 1, origin := "LGA", dest := "BOS",
    destCityName := "Boston", destLabel := "Boston", airlineLabel := "DL",
    region := "MA", passengers := 10, seats := 20, departures := 2, distance := 200 }

/-- Frame whose global max year (2023, from the JFK record) exceeds every
LGA record's year. -/
def exStale : Frame := { hasDestCityName := true, rows := [recStale, recA] }

/-- A retained record with zero passengers (the loader only filters seats
and departures, so such records reach the audit). -/
def recZero : Rec :=
  { year := 2023, month := 1, origin := "JFK", dest := "AAA",
    destCityName := "Xcity", destLabel := "Xcity", airlineLabel := "ZZ",
    region := "G", passengers := 0, seats := 5, departures := 2, distance := 100 }

/-- Frame whose single destination has zero total passengers. -/
def exZero : Frame := { hasDestCityName := true, rows := [recZero] }

/-- A record of a dataset that only carries airport codes: the raw
`DEST_CITY_NAME` column does not exist, the destination label fell back to
the `DEST` code. -/
def recNC : Rec :=
  { year := 2023, month := 1, origin := "JFK", dest := "LON",
    destCityName := "", destLabel := "LON", airlineLabel := "AA",
    region := "G", passengers := 10, seats := 20, departures := 2, distance := 100 }

/-- Frame without the `DEST_CITY_NAME` column. -/
def exNC : Frame := { hasDestCityName := false, rows := [recNC] }

/-- One monthly route record for the forecast examples. -/
def mkFRec (y m : ℕ) : Rec :=
  { year := y, month := m, origin := "ORD", dest := "PAR",
    destCityName := "Paris", destLabel := "Paris", airlineLabel := "AF",
    region := "FR", passengers := 3, seats := 9, departures := 1, distance := 500 }

/-- Route with exactly 11 valid (non-2020/2021) monthly points. -/
def exF11 : Frame :=
  { hasDestCityName := true, rows := (List.range 11).map (fun m => mkFRec 2019 (m + 1)) }

/-- Route with 12 valid monthly points (all of 2019) plus one excluded 2020
point: 13 historical months, 12 training months. -/
def exF13 : Frame :=
  { hasDestCityName := true,
    rows := (List.range 12).map (fun m => mkFRec 2019 (m + 1)) ++ [mkFRec 2020 1] }

/-- The series returned by the successful forecast on `exF13` (extracted
from the engine's output so the witnesses can name it). -/
def wSer : List FPoint :=
  match get_forecast p1 exF13 ("ORD") ("Paris") with
  | Except.ok (some s, _) => s
  | _ => []

theorem mkAggRow_toFinRow (rows : List FinRow) (b : FinRow) : (mkAggRow rows b).toFinRow = b := rfl

theorem mkAggRow_cityTotal (rows : List FinRow) (b : FinRow) :
    (mkAggRow rows b).cityTotal = cityTotalOf rows b.destLabel := rfl

theorem mkAggRow_marketShare (rows : List FinRow) (b : FinRow) :
    (mkAggRow rows b).marketShare =
      if cityTotalOf rows b.destLabel = 0 then none
      else some (b.passengers / cityTotalOf rows b.destLabel * 100) := rfl

theorem mkAggRow_status (rows : List FinRow) (b : FinRow) :
    (mkAggRow rows b).status = statusSelect ((mkAggRow rows b).marketShare) := rfl

theorem mkFinRow_passengers (pw : ℚ → ℚ) (data : List Rec) (k : String × String × String) :
    (mkFinRow pw data k).passengers = ((groupRows data k).map (·.passengers)).sum := rfl

theorem mkFinRow_margin (pw : ℚ → ℚ) (data : List Rec) (k : String × String × String) :
    (mkFinRow pw data k).margin =
      if (mkFinRow pw data k).revenue = 0 then none
      else some ((mkFinRow pw data k).profit / (mkFinRow pw data k).revenue * 100) := rfl

theorem run_audit_some {pw : ℚ → ℚ} {f : Frame} {hub : String} {res : List AggRow}
    (h : run_audit pw f hub = some res) : res = auditRows pw f hub := by
  unfold run_audit at h
  split at h
  · exact absurd h (by simp)
  · exact (Option.some.inj h).symm

theorem le_listMax {l : List ℕ} {a : ℕ} (h : a ∈ l) : a ≤ listMax l := by
  induction l with
  | nil => cases h
  | cons x xs ih =>
    rcases List.mem_cons.mp h with h | h
    · exact h ▸ le_max_left _ _
    · exact le_trans (ih h) (le_max_right _ _)

theorem keyLt_trans {a b c : ℕ × ℕ} (h1 : keyLt a b) (h2 : keyLt b c) : keyLt a c := by
  unfold keyLt at *
  omega

theorem keyLt_total {a b : ℕ × ℕ} (hne : ¬a = b) (hlt : ¬keyLt a b) : keyLt b a := by
  rw [Prod.ext_iff] at hne
  unfold keyLt at *
  omega

theorem mem_insertKey {a k : ℕ × ℕ} {l : List (ℕ × ℕ)} :
    a ∈ insertKey k l ↔ a = k ∨ a ∈ l := by
  induction l with
  | nil => simp [insertKey]
  | cons x xs ih =>
    unfold insertKey
    split
    · rename_i he
      subst he
      simp only [List.mem_cons]
      tauto
    · split
      · simp only [List.mem_cons]
      · simp only [List.mem_cons, ih]
        tauto

theorem pairwise_insertKey {k : ℕ × ℕ} {l : List (ℕ × ℕ)} (h : l.Pairwise keyLt) :
    (insertKey k l).Pairwise keyLt := by
  induction l with
  | nil => simp [insertKey]
  | cons x xs ih =>
    obtain ⟨hx, hxs⟩ := List.pairwise_cons.mp h
    unfold insertKey
    split
    · exact h
    · split
      · rename_i hne hlt
        exact List.pairwise_cons.mpr ⟨fun a ha => by
          rcases List.mem_cons.mp ha with rfl | ha
          · exact hlt
          · exact keyLt_trans hlt (hx a ha), h⟩
      · rename_i hne hlt
        refine List.pairwise_cons.mpr ⟨fun a ha => ?_, ih hxs⟩
        rcases mem_insertKey.mp ha with rfl | ha
        · exact keyLt_total hne hlt
        · exact hx a ha

theorem pairwise_foldl_insertKey (route : List Rec) (acc : List (ℕ × ℕ))
    (h : acc.Pairwise keyLt) :
    (route.foldl (fun ks r => insertKey (r.year, r.month) ks) acc).Pairwise keyLt := by
  induction route generalizing acc with
  | nil => exact h
  | cons r rs ih => exact ih _ (pairwise_insertKey h)

theorem pairwise_sortedKeys (route : List Rec) : (sortedKeys route).Pairwise keyLt :=
  pairwise_foldl_insertKey route [] (by simp)

theorem pairwise_monthlySeries (route : List Rec) :
    (monthlySeries route).Pairwise (fun a b => keyLt (a.1, a.2.1) (b.1, b.2.1)) := by
  unfold monthlySeries
  rw [List.pairwise_map]
  exact pairwise_sortedKeys route

theorem year_le_lastYearOf {route : List Rec} {pt : ℕ × ℕ × ℚ}
    (h : pt ∈ monthlySeries route) : pt.1 ≤ lastYearOf route :=
  le_listMax (List.mem_map_of_mem (·.1) h)

theorem get_forecast_ok_of_success {p : ℕ → ℕ → ℚ} {f : Frame} {o d : String}
    {s : List FPoint}
    (h : get_forecast p f o d = Except.ok (some s, "Success")) :
    f.hasDestCityName = true ∧ (routeOf f o d).isEmpty = false ∧
      ¬(cleanSeries (monthlySeries (routeOf f o d))).length < 12 ∧
      s = forecastSeries p f o d := by
  unfold get_forecast at h
  by_cases hc : f.hasDestCityName
  · rw [if_pos hc] at h
    by_cases hr : (routeOf f o d).isEmpty
    · rw [if_pos hr] at h
      exact absurd h (by simp)
    · rw [if_neg hr] at h
      by_cases hl : (cleanSeries (monthlySeries (routeOf f o d))).length < 12
      · rw [if_pos hl] at h
        exact absurd h (by simp)
      · rw [if_neg hl] at h
        simp only [Except.ok.injEq, Prod.mk.injEq, Option.some.injEq, and_true] at h
        exact ⟨hc, by simpa using hr, hl, h.symm⟩
  · rw [if_neg hc] at h
    exact absurd h (by simp)

theorem get_forecast_not_enough {p : ℕ → ℕ → ℚ} {f : Frame} {o d : String}
    (hc : f.hasDestCityName = true) (hr : (routeOf f o d).isEmpty = false)
    (hl : (cleanSeries (monthlySeries (routeOf f o d))).length < 12) :
    get_forecast p f o d = Except.ok (none, "Not Enough Data") := by
  unfold get_forecast
  rw [if_pos hc, if_neg (by simp [hr]), if_pos hl]

theorem get_forecast_success_eq {p : ℕ → ℕ → ℚ} {f : Frame} {o d : String}
    (hc : f.hasDestCityName = true) (hr : (routeOf f o d).isEmpty = false)
    (hl : ¬(cleanSeries (monthlySeries (routeOf f o d))).length < 12) :
    get_forecast p f o d = Except.ok (some (forecastSeries p f o d), "Success") := by
  unfold get_forecast
  rw [if_pos hc, if_neg (by simp [hr]), if_neg hl]

/-- C5: the audit engine computes the maximum year over ALL records (not
restricted to the hub), keeps only records with that year and the hub as
origin, and returns the absent result (`none`, never an error — the engine
is a total function) exactly when that filter is empty; in particular a hub
whose records all predate the global maximum year yields the absent
result. -/
theorem audit_global_max_year_filter (pw : ℚ → ℚ) (f : Frame) (hub : String) :
    (run_audit pw f hub = none ↔ auditData f hub = []) ∧
    ((∀ r ∈ f.rows, r.origin = hub → r.year < maxYearOf f) → run_audit pw f hub = none) := by
  have hiff : run_audit pw f hub = none ↔ auditData f hub = [] := by
    unfold run_audit
    split
    · rename_i hyp
      simp only [List.isEmpty_iff] at hyp
      simp [hyp]
    · rename_i hyp
      simp only [List.isEmpty_iff] at hyp
      simp [hyp]
  refine ⟨hiff, fun hyp => ?_⟩
  apply hiff.mpr
  apply List.filter_eq_nil_iff.mpr
  intro r hr
  simp only [Bool.and_eq_true, beq_iff_eq, not_and]
  intro hy ho
  exact absurd hy (Nat.ne_of_lt (hyp r hr ho))

/-- C5 witness: hub LGA only has a 2022 record while the global maximum
year is 2023, so the audit yields the absent result. -/
theorem audit_global_max_year_filter_witness : run_audit pw1 exStale ("LGA") = none :=
  (audit_global_max_year_filter pw1 exStale ("LGA")).2 (by decide)

/-- C4 (amended): the code has no explicit handling for a zero revenue —
`Margin` is the raw `Profit / Revenue * 100` quotient, which is the
non-finite division-by-zero float (modelled `none`) exactly when the
revenue is zero, and the ordinary finite quotient otherwise. -/
theorem margin_none_iff_revenue_zero (pw : ℚ → ℚ) (f : Frame) (hub : String)
    (res : List AggRow) (row : AggRow)
    (h : run_audit pw f hub = some res) (hrow : row ∈ res) :
    (row.margin = none ↔ row.revenue = 0) ∧
    (row.revenue ≠ 0 → row.margin = some (row.profit / row.revenue * 100)) := by
  obtain rfl := run_audit_some h
  obtain ⟨b, hb, rfl⟩ := List.mem_map.mp hrow
  obtain ⟨k, hk, rfl⟩ := List.mem_map.mp hb
  show ((mkFinRow pw (auditData f hub) k).margin = none ↔
      (mkFinRow pw (auditData f hub) k).revenue = 0) ∧
    ((mkFinRow pw (auditData f hub) k).revenue ≠ 0 →
      (mkFinRow pw (auditData f hub) k).margin =
        some ((mkFinRow pw (auditData f hub) k).profit / (mkFinRow pw (auditData f hub) k).revenue * 100))
  rw [mkFinRow_margin]
  split_ifs with h0
  · refine ⟨?_, fun hne => absurd h0 hne⟩
    simp [h0]
  · refine ⟨?_, fun _ => rfl⟩
    simp [h0]

/-- C4 counterexample: the zero-passenger route reaches the audit output
with revenue 0, and its margin is the unguarded division-by-zero result
(the non-finite float, modelled `none`) — not an explicitly defined
policy value; the NaN/−∞ propagates into the engine output. -/
theorem margin_nan_counterexample :
    ((run_audit pw1 exZero ("JFK")).getD []).map (fun row => (row.revenue, row.margin)) =
      [(0, none)] := by decide

/-- C4 witness: a row with nonzero revenue has the finite margin formula. -/
theorem margin_none_iff_revenue_zero_witness :
    (rowA.margin = none ↔ rowA.revenue = 0) ∧
    (rowA.revenue ≠ 0 → rowA.margin = some (rowA.profit / rowA.revenue * 100)) :=
  margin_none_iff_revenue_zero pw1 exA ("JFK") [rowA] rowA (by decide) (by decide)

/-- C1: every audit output row equals the reference computation for its
(region, dest_label, airline_label) group over the hub-filtered latest-year
records — passengers/seats/departures are sums, distance is the arithmetic
mean, and the financial columns follow the fixed formulas
`yield = 0.6 * pw distance` (where `pw` models `d ** -0.15`),
`revenue = passengers * distance * yield`,
`cost = ((distance/450) + 0.5) * departures * (5500 + 850*2.80)`,
`profit = revenue - cost`; conversely every hub-filtered latest-year record
is represented by an output row of its group. -/
theorem audit_row_matches_reference (pw : ℚ → ℚ) (f : Frame) (hub : String)
    (res : List AggRow) (h : run_audit pw f hub = some res) :
    (∀ row ∈ res,
      row.passengers = ((groupRows (auditData f hub) (row.region, row.destLabel, row.airlineLabel)).map (·.passengers)).sum ∧
      row.seats = ((groupRows (auditData f hub) (row.region, row.destLabel, row.airlineLabel)).map (·.seats)).sum ∧
      row.departures = ((groupRows (auditData f hub) (row.region, row.destLabel, row.airlineLabel)).map (·.departures)).sum ∧
      row.distance = ((groupRows (auditData f hub) (row.region, row.destLabel, row.airlineLabel)).map (·.distance)).sum
        / ((groupRows (auditData f hub) (row.region, row.destLabel, row.airlineLabel)).length : ℚ) ∧
      row.yieldRate = 0.6 * pw row.distance ∧
      row.revenue = row.passengers * row.distance * row.yieldRate ∧
      row.cost = (row.distance / 450 + 0.5) * row.departures * (5500 + 850 * (2.80 : ℚ)) ∧
      row.profit = row.revenue - row.cost) ∧
    (∀ r ∈ auditData f hub, ∃ row ∈ res,
      row.region = r.region ∧ row.destLabel = r.destLabel ∧ row.airlineLabel = r.airlineLabel) := by
  obtain rfl := run_audit_some h
  constructor
  · intro row hrow
    obtain ⟨b, hb, rfl⟩ := List.mem_map.mp hrow
    obtain ⟨k, hk, rfl⟩ := List.mem_map.mp hb
    refine ⟨rfl, rfl, rfl, rfl, rfl, ?_, rfl, rfl⟩
    exact (mul_assoc _ _ _).symm
  · intro r hr
    refine ⟨mkAggRow (finRows pw (auditData f hub)) (mkFinRow pw (auditData f hub) (auditKey r)),
      ?_, rfl, rfl, rfl⟩
    exact List.mem_map_of_mem _ (List.mem_map_of_mem _ (List.mem_dedup.mpr (List.mem_map_of_mem _ hr)))

/-- C1 witness: the single-group frame `exA` evaluated concretely. -/
theorem audit_row_matches_reference_witness :
    (∀ row ∈ [rowA],
      row.passengers = ((groupRows (auditData exA ("JFK")) (row.region, row.destLabel, row.airlineLabel)).map (·.passengers)).sum ∧
      row.seats = ((groupRows (auditData exA ("JFK")) (row.region, row.destLabel, row.airlineLabel)).map (·.seats)).sum ∧
      row.departures = ((groupRows (auditData exA ("JFK")) (row.region, row.destLabel, row.airlineLabel)).map (·.departures)).sum ∧
      row.distance = ((groupRows (auditData exA ("JFK")) (row.region, row.destLabel, row.airlineLabel)).map (·.distance)).sum
        / ((groupRows (auditData exA ("JFK")) (row.region, row.destLabel, row.airlineLabel)).length : ℚ) ∧
      row.yieldRate = 0.6 * pw1 row.distance ∧
      row.revenue = row.passengers * row.distance * row.yieldRate ∧
      row.cost = (row.distance / 450 + 0.5) * row.departures * (5500 + 850 * (2.80 : ℚ)) ∧
      row.profit = row.revenue - row.cost) ∧
    (∀ r ∈ auditData exA ("JFK"), ∃ row ∈ [rowA],
      row.region = r.region ∧ row.destLabel = r.destLabel ∧ row.airlineLabel = r.airlineLabel) :=
  audit_row_matches_reference pw1 exA ("JFK") [rowA] (by decide)

/-- C2 (amended): every audit row whose market share is a defined (non-NaN)
number — equivalently whose destination has a nonzero passenger total —
receives exactly one of the three statuses, by the exclusive-upper
thresholds: above 50 Monopoly, above 20 up to and including 50 Competitive,
up to and including 20 Minor Player; shares of exactly 50 or exactly 20
fall in the lower bucket.  (A zero-total destination's row instead gets
numpy's `np.select` default value 0 as status, refuting totality over all
rows — see the counterexample.) -/
theorem status_of_defined_share (pw : ℚ → ℚ) (f : Frame) (hub : String)
    (res : List AggRow) (row : AggRow) (s : ℚ)
    (h : run_audit pw f hub = some res) (hrow : row ∈ res)
    (hs : row.marketShare = some s) :
    (row.status = "👑 Monopoly" ∨ row.status = "⚔️ Competitive" ∨ row.status = "⚠️ Minor Player") ∧
    (row.status = "👑 Monopoly" ↔ 50 < s) ∧
    (row.status = "⚔️ Competitive" ↔ 20 < s ∧ s ≤ 50) ∧
    (row.status = "⚠️ Minor Player" ↔ s ≤ 20) := by
  obtain rfl := run_audit_some h
  obtain ⟨b, hb, rfl⟩ := List.mem_map.mp hrow
  have hst : (mkAggRow (finRows pw (auditData f hub)) b).status = statusSelect (some s) := by
    rw [mkAggRow_status, hs]
  rw [hst]
  have hsel : statusSelect (some s) =
      if 50 < s then "👑 Monopoly"
      else if 20 < s ∧ s ≤ 50 then "⚔️ Competitive"
      else if s ≤ 20 then "⚠️ Minor Player"
      else "0" := rfl
  rw [hsel]
  split_ifs with h1 h2 h3
  · exact ⟨Or.inl rfl,
      ⟨fun _ => h1, fun _ => rfl⟩,
      ⟨fun hc => absurd hc (by decide), fun hc => absurd h1 (not_lt.mpr hc.2)⟩,
      ⟨fun hc => absurd hc (by decide),
        fun hc => absurd h1 (not_lt.mpr (le_trans hc (by norm_num)))⟩⟩
  · exact ⟨Or.inr (Or.inl rfl),
      ⟨fun hc => absurd hc (by decide), fun hcc => absurd hcc h1⟩,
      ⟨fun _ => h2, fun _ => rfl⟩,
      ⟨fun hc => absurd hc (by decide), fun hc => absurd hc (not_le.mpr h2.1)⟩⟩
  · exact ⟨Or.inr (Or.inr rfl),
      ⟨fun hc => absurd hc (by decide), fun hcc => absurd hcc h1⟩,
      ⟨fun hc => absurd hc (by decide), fun hcc => absurd hcc h2⟩,
      ⟨fun _ => h3, fun _ => rfl⟩⟩
  · exact absurd ⟨not_le.mp h3, not_lt.mp h1⟩ h2

/-- C2 counterexample: the zero-passenger destination's row is classified
as `np.select`'s default "0", which is none of the three statuses — the
classification is not total over all audit rows. -/
theorem status_default_counterexample :
    ((run_audit pw1 exZero ("JFK")).getD []).map (fun row => row.status) = ["0"] ∧
    (("0" : String) ≠ "👑 Monopoly" ∧ ("0" : String) ≠ "⚔️ Competitive" ∧
      ("0" : String) ≠ "⚠️ Minor Player") :=
  ⟨by decide, by decide⟩

/-- C2 witness: the 100% share row of `exA` is classified Monopoly and the
three threshold buckets evaluate as stated at share 100. -/
theorem status_of_defined_share_witness :
    (rowA.status = "👑 Monopoly" ∨ rowA.status = "⚔️ Competitive" ∨ rowA.status = "⚠️ Minor Player") ∧
    (rowA.status = "👑 Monopoly" ↔ 50 < (100 : ℚ)) ∧
    (rowA.status = "⚔️ Competitive" ↔ 20 < (100 : ℚ) ∧ (100 : ℚ) ≤ 50) ∧
    (rowA.status = "⚠️ Minor Player" ↔ (100 : ℚ) ≤ 20) :=
  status_of_defined_share pw1 exA ("JFK") [rowA] rowA 100 (by decide) (by decide) (by decide)

theorem filtered_share_sum (rows : List FinRow) (d : String)
    (ht : cityTotalOf rows d ≠ 0) :
    ((rows.filter (fun b => b.destLabel == d)).map
      (fun b => ((mkAggRow rows b).marketShare).getD 0)).sum = 100 := by
  have hmap : ((rows.filter (fun b => b.destLabel == d)).map
      (fun b => ((mkAggRow rows b).marketShare).getD 0)) =
      ((rows.filter (fun b => b.destLabel == d)).map
      (fun b => b.passengers * (100 / cityTotalOf rows d))) := by
    apply List.map_congr_left
    intro b hb
    have hbd : b.destLabel = d := by simpa using (List.mem_filter.mp hb).2
    rw [mkAggRow_marketShare, hbd, if_neg ht, Option.getD_some]
    ring
  have hsplit : ((rows.filter (fun b => b.destLabel == d)).map
      (fun b => b.passengers * (100 / cityTotalOf rows d))).sum =
      ((rows.filter (fun b => b.destLabel == d)).map
      (fun b => b.passengers)).sum * (100 / cityTotalOf rows d) :=
    List.sum_map_mul_right (rows.filter (fun b => b.destLabel == d))
      (fun b => b.passengers) (100 / cityTotalOf rows d)
  have hsum : ((rows.filter (fun b => b.destLabel == d)).map (fun b => b.passengers)).sum =
      cityTotalOf rows d := rfl
  rw [hmap, hsplit, hsum, mul_comm, div_mul_cancel₀ _ ht]

/-- C3 (amended): for every destination of an audit result whose
`city_total_passengers` is nonzero, the market shares of its airline rows
sum to exactly 100 (shares are `passengers / city_total * 100` and the city
total is the sum of the aggregated passengers over exactly those rows).
For a destination whose airlines all have zero passengers the shares are
the NaN of a 0/0 float division instead — see the counterexample. -/
theorem share_sum_hundred (pw : ℚ → ℚ) (f : Frame) (hub : String)
    (res : List AggRow) (d : String)
    (h : run_audit pw f hub = some res)
    (ht : cityTotalOf (finRows pw (auditData f hub)) d ≠ 0) :
    ((res.filter (fun row => row.destLabel == d)).map
      (fun row => row.marketShare.getD 0)).sum = 100 := by
  obtain rfl := run_audit_some h
  unfold auditRows
  rw [List.filter_map, List.map_map]
  exact filtered_share_sum (finRows pw (auditData f hub)) d ht

/-- C3 counterexample: on the zero-passenger destination the single row's
share is the undefined 0/0 result (`none`), so the shares of that
destination do not sum to 100 — the claim fails without the nonzero-total
proviso. -/
theorem share_sum_counterexample :
    (((run_audit pw1 exZero ("JFK")).getD []).filter (fun row => row.destLabel == "Xcity")).map
        (fun row => row.marketShare) = [none] ∧
    ((((run_audit pw1 exZero ("JFK")).getD []).filter (fun row => row.destLabel == "Xcity")).map
        (fun row => row.marketShare.getD 0)).sum ≠ 100 :=
  ⟨by decide, by decide⟩

/-- C3 witness: the single-airline destination London of `exA` has share
sum 100. -/
theorem share_sum_hundred_witness :
    ((([rowA] : List AggRow).filter (fun row => row.destLabel == "London")).map
      (fun row => row.marketShare.getD 0)).sum = 100 :=
  share_sum_hundred pw1 exA ("JFK") [rowA] ("London") (by decide) (by decide)

/-- C6 (amended): on a table that carries the city-name column the forecast
engine never raises — it matches the destination against `DEST_CITY_NAME`,
retries against the raw `DEST` code column when that match is empty, and
returns the sentinel status "No Data" exactly when both matches are empty.
On a table that lacks the city-name column the engine instead raises a
`KeyError` when it reads `df['DEST_CITY_NAME']` — see the
counterexample. -/
theorem forecast_no_data_semantics (p : ℕ → ℕ → ℚ) (f : Frame) (o d : String)
    (hc : f.hasDestCityName = true) :
    (∃ out, get_forecast p f o d = Except.ok out) ∧
    (get_forecast p f o d = Except.ok (none, "No Data") ↔
      (f.rows.filter (fun r => r.origin == o && r.destCityName == d) = [] ∧
       f.rows.filter (fun r => r.origin == o && r.dest == d) = [])) := by
  unfold get_forecast
  rw [if_pos hc]
  by_cases hr : (routeOf f o d).isEmpty
  · rw [if_pos hr]
    refine ⟨⟨(none, "No Data"), rfl⟩, ⟨fun _ => ?_, fun _ => rfl⟩⟩
    unfold routeOf at hr
    by_cases h1 : (f.rows.filter (fun r => r.origin == o && r.destCityName == d)).isEmpty
    · rw [if_pos h1] at hr
      exact ⟨List.isEmpty_iff.mp h1, List.isEmpty_iff.mp hr⟩
    · rw [if_neg h1] at hr
      exact absurd hr h1
  · rw [if_neg hr]
    constructor
    · by_cases hl : (cleanSeries (monthlySeries (routeOf f o d))).length < 12
      · rw [if_pos hl]
        exact ⟨(none, "Not Enough Data"), rfl⟩
      · rw [if_neg hl]
        exact ⟨(some (forecastSeries p f o d), "Success"), rfl⟩
    · refine ⟨fun heq => ?_, fun hboth => ?_⟩
      · by_cases hl : (cleanSeries (monthlySeries (routeOf f o d))).length < 12
        · rw [if_pos hl] at heq
          exact absurd heq (by decide)
        · rw [if_neg hl] at heq
          exact absurd heq (by simp)
      · exfalso
        apply hr
        unfold routeOf
        rw [hboth.1]
        simp [hboth.2]

/-- C6 counterexample: a frame that lacks the `DEST_CITY_NAME` column makes
the engine raise the KeyError even though the requested destination would
match the raw `DEST` code column — the retry never gets a chance to run. -/
theorem forecast_missing_column_raises :
    get_forecast p1 exNC ("JFK") ("LON") = Except.error ("KeyError: DEST_CITY_NAME") ∧
    exNC.rows.filter (fun r => r.origin == "JFK" && r.dest == "LON") ≠ [] :=
  ⟨by decide, by decide⟩

/-- C6 witness: on `exA` (city-name column present) an unknown destination
yields the "No Data" sentinel, never an exception. -/
theorem forecast_no_data_semantics_witness :
    (∃ out, get_forecast p1 exA ("JFK") ("Nowhere") = Except.ok out) ∧
    (get_forecast p1 exA ("JFK") ("Nowhere") = Except.ok (none, "No Data") ↔
      (exA.rows.filter (fun r => r.origin == "JFK" && r.destCityName == "Nowhere") = [] ∧
       exA.rows.filter (fun r => r.origin == "JFK" && r.dest == "Nowhere") = [])) :=
  forecast_no_data_semantics p1 exA ("JFK") ("Nowhere") (by decide)

/-- C7: the training subset of a successful forecast contains no monthly
point of calendar years 2020 or 2021 (the exclusion is built into
`cleanSeries`, unconditional and non-configurable), while every monthly
point of the route — the 2020/2021 ones included — appears in the returned
series tagged Historical: the exclusion applies to model fitting only, not
to display. -/
theorem training_excludes_covid (p : ℕ → ℕ → ℚ) (f : Frame) (o d : String) (s : List FPoint)
    (h : get_forecast p f o d = Except.ok (some s, "Success")) :
    (∀ pt ∈ cleanSeries (monthlySeries (routeOf f o d)), pt.1 ≠ 2020 ∧ pt.1 ≠ 2021) ∧
    (∀ pt ∈ monthlySeries (routeOf f o d), histPoint pt ∈ s) := by
  obtain ⟨hc, hr, hl, rfl⟩ := get_forecast_ok_of_success h
  constructor
  · intro pt hpt
    have hcond := (List.mem_filter.mp hpt).2
    simpa using hcond
  · intro pt hpt
    unfold forecastSeries
    exact List.mem_append_left _ (List.mem_map_of_mem _ hpt)

/-- C7 witness: the 13-month route (twelve 2019 months and one 2020 month)
evaluated concretely; the 2020 point is absent from the training subset but
present, tagged Historical, in the returned series. -/
theorem training_excludes_covid_witness :
    (∀ pt ∈ cleanSeries (monthlySeries (routeOf exF13 ("ORD") ("Paris"))), pt.1 ≠ 2020 ∧ pt.1 ≠ 2021) ∧
    (∀ pt ∈ monthlySeries (routeOf exF13 ("ORD") ("Paris")), histPoint pt ∈ wSer) :=
  training_excludes_covid p1 exF13 ("ORD") ("Paris") wSer (by decide)

/-- C8: a matched route whose training subset has fewer than 12 monthly
points makes the engine return the sentinel `(none, "Not Enough Data")` —
no series — and the result does not depend on the predictor at all: no
model is fitted and no prediction is computed. -/
theorem not_enough_data_sentinel (p q : ℕ → ℕ → ℚ) (f : Frame) (o d : String)
    (hc : f.hasDestCityName = true) (hr : (routeOf f o d).isEmpty = false)
    (hl : (cleanSeries (monthlySeries (routeOf f o d))).length < 12) :
    get_forecast p f o d = Except.ok (none, "Not Enough Data") ∧
    get_forecast p f o d = get_forecast q f o d := by
  have h1 : get_forecast p f o d = Except.ok (none, "Not Enough Data") :=
    get_forecast_not_enough hc hr hl
  have h2 : get_forecast q f o d = Except.ok (none, "Not Enough Data") :=
    get_forecast_not_enough hc hr hl
  exact ⟨h1, h1.trans h2.symm⟩

/-- C8 witness: a route with exactly 11 valid non-2020/2021 months returns
"Not Enough Data" with an absent series, identically for two different
predictors. -/
theorem not_enough_data_sentinel_witness :
    get_forecast p1 exF11 ("ORD") ("Paris") = Except.ok (none, "Not Enough Data") ∧
    get_forecast p1 exF11 ("ORD") ("Paris") = get_forecast p2 exF11 ("ORD") ("Paris") :=
  not_enough_data_sentinel p1 p2 exF11 ("ORD") ("Paris") (by decide) (by decide) (by decide)

/-- C9: every successful forecast result is exactly the historical monthly
points tagged Historical followed by the twelve predicted points tagged
Forecast — one per month 1..12 of `last_observed_year + 1` (visible in the
`List.range 12` / `futPoint` shape) — the two tags split the series back
into precisely those two parts, and the whole series is strictly
chronological: historical keys ascending, all before the forecast year. -/
theorem success_series_structure (p : ℕ → ℕ → ℚ) (f : Frame) (o d : String) (s : List FPoint)
    (h : get_forecast p f o d = Except.ok (some s, "Success")) :
    s = (monthlySeries (routeOf f o d)).map histPoint
        ++ (List.range 12).map (futPoint p (lastYearOf (routeOf f o d) + 1)) ∧
    s.filter (fun pt => pt.type == "Historical") = (monthlySeries (routeOf f o d)).map histPoint ∧
    s.filter (fun pt => pt.type == "Forecast") =
      (List.range 12).map (futPoint p (lastYearOf (routeOf f o d) + 1)) ∧
    List.Pairwise (fun a b => keyLt (a.year, a.month) (b.year, b.month)) s := by
  obtain ⟨hc, hr, hl, rfl⟩ := get_forecast_ok_of_success h
  have hhist : ((monthlySeries (routeOf f o d)).map histPoint).filter
      (fun pt => pt.type == "Historical") = (monthlySeries (routeOf f o d)).map histPoint := by
    apply List.filter_eq_self.mpr
    intro a ha
    obtain ⟨pt, hpt, rfl⟩ := List.mem_map.mp ha
    rfl
  have hhistno : (((List.range 12).map (futPoint p (lastYearOf (routeOf f o d) + 1))).filter
      (fun pt => pt.type == "Historical")) = [] := by
    apply List.filter_eq_nil_iff.mpr
    intro a ha
    obtain ⟨m, hm, rfl⟩ := List.mem_map.mp ha
    simp [futPoint]
  have hfut : (((List.range 12).map (futPoint p (lastYearOf (routeOf f o d) + 1))).filter
      (fun pt => pt.type == "Forecast")) =
      (List.range 12).map (futPoint p (lastYearOf (routeOf f o d) + 1)) := by
    apply List.filter_eq_self.mpr
    intro a ha
    obtain ⟨m, hm, rfl⟩ := List.mem_map.mp ha
    rfl
  have hfutno : (((monthlySeries (routeOf f o d)).map histPoint).filter
      (fun pt => pt.type == "Forecast")) = [] := by
    apply List.filter_eq_nil_iff.mpr
    intro a ha
    obtain ⟨pt, hpt, rfl⟩ := List.mem_map.mp ha
    simp [histPoint]
  refine ⟨rfl, ?_, ?_, ?_⟩
  · unfold forecastSeries
    rw [List.filter_append, hhist, hhistno, List.append_nil]
  · unfold forecastSeries
    rw [List.filter_append, hfut, hfutno, List.nil_append]
  · unfold forecastSeries
    rw [List.pairwise_append]
    refine ⟨?_, ?_, ?_⟩
    · rw [List.pairwise_map]
      exact pairwise_monthlySeries (routeOf f o d)
    · rw [List.pairwise_map]
      exact (List.pairwise_lt_range 12).imp (fun hab => Or.inr ⟨rfl, Nat.succ_lt_succ hab⟩)
    · intro a ha b hb
      obtain ⟨pt, hpt, rfl⟩ := List.mem_map.mp ha
      obtain ⟨m, hm, rfl⟩ := List.mem_map.mp hb
      exact Or.inl (Nat.lt_succ_of_le (year_le_lastYearOf hpt))

/-- C9 witness: the successful forecast on the 13-month route evaluated
concretely (13 Historical points, 12 Forecast points for 2021, strictly
chronological). -/
theorem success_series_structure_witness :
    wSer = (monthlySeries (routeOf exF13 ("ORD") ("Paris"))).map histPoint
        ++ (List.range 12).map (futPoint p1 (lastYearOf (routeOf exF13 ("ORD") ("Paris")) + 1)) ∧
    wSer.filter (fun pt => pt.type == "Historical") =
      (monthlySeries (routeOf exF13 ("ORD") ("Paris"))).map histPoint ∧
    wSer.filter (fun pt => pt.type == "Forecast") =
      (List.range 12).map (futPoint p1 (lastYearOf (routeOf exF13 ("ORD") ("Paris")) + 1)) ∧
    List.Pairwise (fun a b => keyLt (a.year, a.month) (b.year, b.month)) wSer :=
  success_series_structure p1 exF13 ("ORD") ("Paris") wSer (by decide)

/-- C10 (amended): for a table that carries the city-name column and whose
destination labels were derived from it (the loader invariant), every
destination of an audit result round-trips: the forecast engine called with
the same table, the audit's hub and that destination label returns a
sentinel result — never an exception and never "No Data".  Without the
city-name column the forecast raises a KeyError on a destination the audit
did report — see the counterexample. -/
theorem roundtrip_no_error (pw : ℚ → ℚ) (p : ℕ → ℕ → ℚ) (f : Frame) (hub : String)
    (res : List AggRow) (row : AggRow)
    (hc : f.hasDestCityName = true)
    (hlab : ∀ r ∈ f.rows, r.destCityName = r.destLabel)
    (h : run_audit pw f hub = some res) (hrow : row ∈ res) :
    ∃ out, get_forecast p f hub row.destLabel = Except.ok out ∧ out.2 ≠ "No Data" := by
  obtain rfl := run_audit_some h
  obtain ⟨b, hb, rfl⟩ := List.mem_map.mp hrow
  obtain ⟨k, hk, rfl⟩ := List.mem_map.mp hb
  obtain ⟨r, hr, hkr⟩ := List.mem_map.mp (List.mem_dedup.mp hk)
  have hdl : (mkAggRow (finRows pw (auditData f hub)) (mkFinRow pw (auditData f hub) k)).destLabel
      = r.destLabel := by
    rw [← hkr]
    rfl
  rw [hdl]
  have hrmem : r ∈ f.rows := (List.mem_filter.mp hr).1
  have hcond := (List.mem_filter.mp hr).2
  simp only [Bool.and_eq_true, beq_iff_eq] at hcond
  have hroute : (routeOf f hub r.destLabel).isEmpty = false := by
    unfold routeOf
    have hr1 : r ∈ f.rows.filter (fun x => x.origin == hub && x.destCityName == r.destLabel) := by
      apply List.mem_filter.mpr
      refine ⟨hrmem, ?_⟩
      simp [hcond.2, hlab r hrmem]
    have hne : f.rows.filter (fun x => x.origin == hub && x.destCityName == r.destLabel) ≠ [] :=
      List.ne_nil_of_mem hr1
    rw [if_neg (by simpa [List.isEmpty_iff] using hne)]
    simpa [List.isEmpty_iff] using hne
  by_cases hl : (cleanSeries (monthlySeries (routeOf f hub r.destLabel))).length < 12
  · exact ⟨(none, "Not Enough Data"), get_forecast_not_enough hc hroute hl, by decide⟩
  · exact ⟨(some (forecastSeries p f hub r.destLabel), "Success"),
      get_forecast_success_eq hc hroute hl, show ("Success" : String) ≠ "No Data" by decide⟩

/-- C10 counterexample: on the code-only table the audit reports
destination LON for hub JFK, but feeding LON back into the forecast engine
raises the KeyError — the round trip errors, refuting the claim for
arbitrary input tables. -/
theorem roundtrip_counterexample :
    ((run_audit pw1 exNC ("JFK")).getD []).map (fun row => row.destLabel) = ["LON"] ∧
    get_forecast p1 exNC ("JFK") ("LON") = Except.error ("KeyError: DEST_CITY_NAME") :=
  ⟨by decide, by decide⟩

/-- C10 witness: the audit destination London of `exA` round-trips into the
forecast engine without error and without "No Data". -/
theorem roundtrip_no_error_witness :
    ∃ out, get_forecast p1 exA ("JFK") rowA.destLabel = Except.ok out ∧ out.2 ≠ "No Data" :=
  roundtrip_no_error pw1 p1 exA ("JFK") [rowA] rowA (by decide) (by decide) (by decide) (by decide)
